import Mathlib

/-!
# QueueForge core: shallow embedding and verification

This file embeds the computational core of the QueueForge repository in Lean 4
and proves properties of it:

* `MMCQueueingModel` — the infinite-capacity M/M/c analytic model
  (`src/models/QueueingModel.ts`): utilization, stability, Erlang-C, and the
  derived metrics Lq, L, Wq, W.
* `MMCKQueueingModel` — the finite-capacity M/M/c/K analytic model
  (`src/models/MMCKQueueingModel.ts`): P0, rejection probability, Lq and the
  derived metrics computed with the effective arrival rate.
* `QueueSimulation` — the time-stepped stochastic simulation engine
  (`src/simulation/QueueSimulation.ts`): per-step state transition with the
  per-step Bernoulli outcomes abstracted as arbitrary boolean inputs.

JavaScript double-precision numbers are modelled as exact rationals (`ℚ`);
integer-valued counters of the simulation state are modelled as `ℤ`.
The literal JavaScript `Infinity` returned by the M/M/c model for unstable
systems is modelled as `⊤` in `WithTop ℚ`, which is distinct from every
finite value `(q : ℚ)` and has no NaN inhabitant.  Lean's division-by-zero
convention (`x / 0 = 0`) only matters at inputs excluded by the hypotheses of
the theorems below.
-/

/-- Iterative factorial from the source (`factorial(n)` helper, identical in
both model classes): `n ≤ 1` gives 1, otherwise the product `2 * ⋯ * n`. -/
def factorial : ℕ → ℕ
  | 0 => 1
  | n + 1 => (n + 1) * factorial n

/-- `QueueingParameters` of `QueueingModel.ts`: arrival rate λ, service rate μ
(per minute), and the number of servers c (an integer per the data model). -/
structure QueueingParameters where
  arrivalRate : ℚ
  serviceRate : ℚ
  numServers : ℕ
deriving Repr, DecidableEq

namespace MMCQueueingModel

/-- `MMCQueueingModel.calculateUtilization`: ρ = λ / (μ × c). -/
def calculateUtilization (p : QueueingParameters) : ℚ :=
  p.arrivalRate / (p.serviceRate * p.numServers)

/-- `MMCQueueingModel.isSystemStable`: ρ < 1. -/
def isSystemStable (p : QueueingParameters) : Bool :=
  calculateUtilization p < 1

/-- The local `a = arrivalRate / serviceRate` (offered load) used by
`calculateErlangC`. -/
def offeredLoad (p : QueueingParameters) : ℚ :=
  p.arrivalRate / p.serviceRate

/-- The local `numerator = (a^c / c!) * (c / (c - a))` of `calculateErlangC`. -/
def erlangCNumerator (p : QueueingParameters) : ℚ :=
  offeredLoad p ^ p.numServers / (factorial p.numServers : ℚ)
    * ((p.numServers : ℚ) / ((p.numServers : ℚ) - offeredLoad p))

/-- The local `denominator = Σ_{k<c} a^k/k! + numerator` of `calculateErlangC`. -/
def erlangCDenominator (p : QueueingParameters) : ℚ :=
  (∑ k in Finset.range p.numServers, offeredLoad p ^ k / (factorial k : ℚ))
    + erlangCNumerator p

/-- `MMCQueueingModel.calculateErlangC`: returns 1.0 when `a ≥ c`, otherwise
`numerator / denominator` with `numerator = (a^c/c!) * (c/(c-a))` and
`denominator = Σ_{k<c} a^k/k! + numerator`. -/
def calculateErlangC (p : QueueingParameters) : ℚ :=
  if (p.numServers : ℚ) ≤ offeredLoad p then 1
  else erlangCNumerator p / erlangCDenominator p

/-- The finite value computed by `calculateAverageQueueLength` in the stable
branch: `Lq = ErlangC * ρ / (1 - ρ)`. -/
def lqStable (p : QueueingParameters) : ℚ :=
  calculateErlangC p * calculateUtilization p / (1 - calculateUtilization p)

/-- `MMCQueueingModel.calculateAverageQueueLength`: `Infinity` when unstable,
otherwise `ErlangC * ρ / (1 - ρ)`. -/
def calculateAverageQueueLength (p : QueueingParameters) : WithTop ℚ :=
  if isSystemStable p then (lqStable p : ℚ) else ⊤

/-- The finite value computed by `calculateAverageSystemLength` in the stable
branch: `L = Lq + λ/μ`. -/
def lStable (p : QueueingParameters) : ℚ :=
  lqStable p + p.arrivalRate / p.serviceRate

/-- `MMCQueueingModel.calculateAverageSystemLength`: `Infinity` when unstable,
otherwise `Lq + λ/μ`. -/
def calculateAverageSystemLength (p : QueueingParameters) : WithTop ℚ :=
  if isSystemStable p then (lStable p : ℚ) else ⊤

/-- `MMCQueueingModel.calculateAverageWaitTime`: `Infinity` when unstable,
otherwise `Wq = Lq / λ`. -/
def calculateAverageWaitTime (p : QueueingParameters) : WithTop ℚ :=
  if isSystemStable p then ((lqStable p / p.arrivalRate : ℚ) : WithTop ℚ) else ⊤

/-- `MMCQueueingModel.calculateAverageSystemTime`: `Infinity` when unstable,
otherwise `W = L / λ`. -/
def calculateAverageSystemTime (p : QueueingParameters) : WithTop ℚ :=
  if isSystemStable p then ((lStable p / p.arrivalRate : ℚ) : WithTop ℚ) else ⊤

end MMCQueueingModel

/-- `QueueMetrics` of `QueueingModel.ts`.  The four derived metrics live in
`WithTop ℚ` because the unstable branch returns the JavaScript `Infinity`. -/
structure QueueMetrics where
  utilization : ℚ
  averageQueueLength : WithTop ℚ
  averageSystemLength : WithTop ℚ
  averageWaitTime : WithTop ℚ
  averageSystemTime : WithTop ℚ
  isStable : Bool
deriving Repr, DecidableEq

namespace MMCQueueingModel

/-- `MMCQueueingModel.calculateMetrics`: the unstable branch returns the four
`Infinity` sentinels together with the real utilization; the stable branch
calls the four metric functions. -/
def calculateMetrics (p : QueueingParameters) : QueueMetrics :=
  if isSystemStable p then
    { utilization := calculateUtilization p
      averageQueueLength := calculateAverageQueueLength p
      averageSystemLength := calculateAverageSystemLength p
      averageWaitTime := calculateAverageWaitTime p
      averageSystemTime := calculateAverageSystemTime p
      isStable := true }
  else
    { utilization := calculateUtilization p
      averageQueueLength := ⊤
      averageSystemLength := ⊤
      averageWaitTime := ⊤
      averageSystemTime := ⊤
      isStable := false }

end MMCQueueingModel

/-- `MMCKQueueingParameters` of `MMCKQueueingModel.ts`: λ, μ, c, and the
capacity bound K (queue + servers), both integers per the data model. -/
structure MMCKQueueingParameters where
  arrivalRate : ℚ
  serviceRate : ℚ
  numServers : ℕ
  maxCapacity : ℕ
deriving Repr, DecidableEq

/-- `MMCKQueueMetrics` of `MMCKQueueingModel.ts`.  All numeric fields are
finite (the model never returns `Infinity`); `isStable` is the literal
`true` of the source. -/
structure MMCKQueueMetrics where
  utilization : ℚ
  averageQueueLength : ℚ
  averageSystemLength : ℚ
  averageWaitTime : ℚ
  averageSystemTime : ℚ
  rejectionProbability : ℚ
  isStable : Bool
deriving Repr, DecidableEq

namespace MMCKQueueingModel

/-- The local `a = arrivalRate / serviceRate` (offered load) of
`MMCKQueueingModel`. -/
def offeredLoad (p : MMCKQueueingParameters) : ℚ :=
  p.arrivalRate / p.serviceRate

/-- The local `rho = arrivalRate / (numServers * serviceRate)` of
`MMCKQueueingModel`. -/
def rho (p : MMCKQueueingParameters) : ℚ :=
  p.arrivalRate / (p.numServers * p.serviceRate)

/-- The tolerance `1e-10` of the `Math.abs(rho - 1) < 1e-10` checks. -/
def rhoTol : ℚ := 1 / 10 ^ 10

/-- `MMCKQueueingModel.calculateP0`:
`sum1 = Σ_{k<c} a^k/k!`; `sum2 = (a^c/c!) * (K-c+1)` when `|ρ-1| < 1e-10`
and `(a^c/c!) * (1-ρ^(K-c+1))/(1-ρ)` otherwise; result `1/(sum1+sum2)`. -/
def calculateP0 (p : MMCKQueueingParameters) : ℚ :=
  let a := offeredLoad p
  let c := p.numServers
  let K := p.maxCapacity
  let sum1 := ∑ k in Finset.range c, a ^ k / (factorial k : ℚ)
  let acOverCFact := a ^ c / (factorial c : ℚ)
  let sum2 :=
    if |rho p - 1| < rhoTol then
      acOverCFact * ((K : ℚ) - (c : ℚ) + 1)
    else
      acOverCFact * (1 - rho p ^ (K - c + 1)) / (1 - rho p)
  1 / (sum1 + sum2)

/-- `MMCKQueueingModel.calculateRejectionProbability`:
`P0 * a^K/K!` when `K ≤ c`, otherwise `P0 * (a^c/c!) * ρ^(K-c)`. -/
def calculateRejectionProbability (p : MMCKQueueingParameters) : ℚ :=
  let a := offeredLoad p
  let c := p.numServers
  let K := p.maxCapacity
  let p0 := calculateP0 p
  if K ≤ c then
    p0 * a ^ K / (factorial K : ℚ)
  else
    p0 * (a ^ c / (factorial c : ℚ)) * rho p ^ (K - c)

/-- `MMCKQueueingModel.calculateAverageQueueLength`:
the `|ρ-1| < 1e-10` branch returns `(a^c/c!) * P0 * (K-c)(K-c+1)/2`,
the general branch `(a^c/c!) * ρ * P0 * (1 - ρ^(n+1) - (n+1)ρ^n(1-ρ)) / (1-ρ)²`
with `n = K - c`. -/
def calculateAverageQueueLength (p : MMCKQueueingParameters) : ℚ :=
  let a := offeredLoad p
  let c := p.numServers
  let K := p.maxCapacity
  let p0 := calculateP0 p
  let acOverCFact := a ^ c / (factorial c : ℚ)
  if |rho p - 1| < rhoTol then
    acOverCFact * p0 * (((K : ℚ) - (c : ℚ)) * ((K : ℚ) - (c : ℚ) + 1)) / 2
  else
    let n := K - c
    let numerator :=
      1 - rho p ^ (n + 1) - ((n : ℚ) + 1) * rho p ^ n * (1 - rho p)
    acOverCFact * rho p * p0 * numerator / (1 - rho p) ^ 2

/-- The local `lambdaEff = arrivalRate * (1 - rejectionProbability)` of
`MMCKQueueingModel.calculateMetrics`. -/
def lambdaEff (p : MMCKQueueingParameters) : ℚ :=
  p.arrivalRate * (1 - calculateRejectionProbability p)

/-- `MMCKQueueingModel.calculateMetrics`: `L = Lq + (λ_eff > 0 ? λ_eff/μ : 0)`,
`Wq = λ_eff > 0 ? Lq/λ_eff : 0`, `W = λ_eff > 0 ? L/λ_eff : 0`,
`isStable = true`. -/
def calculateMetrics (p : MMCKQueueingParameters) : MMCKQueueMetrics :=
  let lq := calculateAverageQueueLength p
  let l := lq + (if 0 < lambdaEff p then lambdaEff p / p.serviceRate else 0)
  let wq := if 0 < lambdaEff p then lq / lambdaEff p else 0
  let w := if 0 < lambdaEff p then l / lambdaEff p else 0
  { utilization := rho p
    averageQueueLength := lq
    averageSystemLength := l
    averageWaitTime := wq
    averageSystemTime := w
    rejectionProbability := calculateRejectionProbability p
    isStable := true }

end MMCKQueueingModel

/-- `SimulationState` of `QueueSimulation.ts`.  The JavaScript number-valued
counters only ever hold integers, so they are modelled as `ℤ` (their claimed
non-negativity is proved, not assumed); `currentTime` accumulates the rational
`timeStep`. -/
structure SimulationState where
  currentTime : ℚ
  queueLength : ℤ
  serversBusy : ℤ
  totalArrivals : ℤ
  totalServed : ℤ
  cumulativeQueueLength : ℤ
  timeSteps : ℤ
deriving Repr, DecidableEq

/-- `SimulationConfig` of `QueueSimulation.ts` (the version under
`src/unnamed/part_006`, which has no `maxCapacity` field). -/
structure SimulationConfig where
  arrivalRate : ℚ
  serviceRate : ℚ
  numServers : ℤ
  timeStep : ℚ
deriving Repr, DecidableEq

/-- One step's worth of random outcomes, abstracted as booleans: whether the
`Math.random() < arrivalProbability` trial succeeds, and for each busy-server
index `i` whether the `Math.random() < serviceCompletionProb` trial succeeds. -/
structure StepInput where
  arrival : Bool
  serviceCoin : ℕ → Bool

namespace QueueSimulation

/-- `QueueSimulation.getInitialState`: the all-zero state. -/
def getInitialState : SimulationState :=
  { currentTime := 0
    queueLength := 0
    serversBusy := 0
    totalArrivals := 0
    totalServed := 0
    cumulativeQueueLength := 0
    timeSteps := 0 }

/-- `QueueSimulation.step`, with the two kinds of Bernoulli draws supplied as
the boolean `inp`.  Mirrors the source order: (1) arrival trial, (2)
`serversCurrentlyBusy = min(queueLength + serversBusy, numServers)` and the
per-server completion trials, (3) `totalServed += completions`, dequeue
`min(queueLength, completions)`, `serversBusy = max(0, busy - completions)`,
clamp `queueLength ≥ 0`, (4) statistics. -/
def step (cfg : SimulationConfig) (inp : StepInput) (s : SimulationState) :
    SimulationState :=
  let arrivals : ℤ := if inp.arrival then 1 else 0
  let s1 :=
    if 0 < arrivals then
      { s with
        totalArrivals := s.totalArrivals + arrivals
        queueLength := s.queueLength + arrivals }
    else s
  let serversCurrentlyBusy := min (s1.queueLength + s1.serversBusy) cfg.numServers
  let completions : ℤ :=
    ((List.range serversCurrentlyBusy.toNat).filter inp.serviceCoin).length
  let customersToServe := min s1.queueLength completions
  let newQueueLength := max 0 (s1.queueLength - customersToServe)
  { currentTime := s1.currentTime + cfg.timeStep
    queueLength := newQueueLength
    serversBusy := max 0 (serversCurrentlyBusy - completions)
    totalArrivals := s1.totalArrivals
    totalServed := s1.totalServed + completions
    cumulativeQueueLength := s1.cumulativeQueueLength + newQueueLength
    timeSteps := s1.timeSteps + 1 }

/-- A whole run: fold `step` over a list of per-step random outcomes, starting
from the zero-initialized state of the constructor. -/
def run (cfg : SimulationConfig) (inputs : List StepInput) : SimulationState :=
  inputs.foldl (fun s inp => step cfg inp s) getInitialState

/-- `QueueSimulation.getAverageQueueLength`: 0 when `timeSteps === 0`,
otherwise `cumulativeQueueLength / timeSteps`. -/
def getAverageQueueLength (s : SimulationState) : ℚ :=
  if s.timeSteps = 0 then 0
  else (s.cumulativeQueueLength : ℚ) / (s.timeSteps : ℚ)

end QueueSimulation

/-- The `Partial<SimulationConfig>` argument of `updateConfig`: each field is
optionally present. -/
structure ConfigPatch where
  arrivalRate : Option ℚ := none
  serviceRate : Option ℚ := none
  numServers : Option ℤ := none
  timeStep : Option ℚ := none
deriving Repr, DecidableEq

/-- A `QueueSimulation` instance: its private `config` and `state` fields. -/
structure QueueSimulationObj where
  config : SimulationConfig
  state : SimulationState
deriving Repr, DecidableEq

namespace QueueSimulation

/-- The spread `{ ...this.config, ...config }`: fields present in the patch
override, the rest are kept. -/
def mergeConfig (c : SimulationConfig) (patch : ConfigPatch) : SimulationConfig :=
  { arrivalRate := patch.arrivalRate.getD c.arrivalRate
    serviceRate := patch.serviceRate.getD c.serviceRate
    numServers := patch.numServers.getD c.numServers
    timeStep := patch.timeStep.getD c.timeStep }

/-- `QueueSimulation.updateConfig`: `this.config = { ...this.config, ...config }`;
the `state` field is not mentioned. -/
def updateConfig (q : QueueSimulationObj) (patch : ConfigPatch) : QueueSimulationObj :=
  { q with config := mergeConfig q.config patch }

end QueueSimulation

/-- Modelled from the spec: the current repository's `QueueSimulation.ts`
supports an optional `maxCapacity` in its `SimulationConfig` (§3 of the spec;
the repository README and `App.tsx` reference it), but that file is not under
`src/` — only the `maxCapacity`-less version `src/unnamed/part_006` is.  This
is that configuration record: the four fields of `SimulationConfig` plus the
optional capacity bound. -/
structure SimulationConfigK where
  arrivalRate : ℚ
  serviceRate : ℚ
  numServers : ℤ
  timeStep : ℚ
  maxCapacity : Option ℤ := none
deriving Repr, DecidableEq

namespace QueueSimulation

/-- Modelled from the spec: the finite-capacity `step` of the current
`QueueSimulation.ts`, which is not under `src/`.  Per spec §4.6, it is the
`part_006` step except that "when maxCapacity is configured, arrivals that
would push (queueLength+serversBusy) above maxCapacity must be rejected rather
than admitted — rejected arrivals are not counted toward totalArrivals". -/
def stepK (cfg : SimulationConfigK) (inp : StepInput) (s : SimulationState) :
    SimulationState :=
  let accepted :=
    inp.arrival &&
      match cfg.maxCapacity with
      | none => true
      | some cap => decide (s.queueLength + s.serversBusy + 1 ≤ cap)
  let arrivals : ℤ := if accepted then 1 else 0
  let s1 :=
    if 0 < arrivals then
      { s with
        totalArrivals := s.totalArrivals + arrivals
        queueLength := s.queueLength + arrivals }
    else s
  let serversCurrentlyBusy := min (s1.queueLength + s1.serversBusy) cfg.numServers
  let completions : ℤ :=
    ((List.range serversCurrentlyBusy.toNat).filter inp.serviceCoin).length
  let customersToServe := min s1.queueLength completions
  let newQueueLength := max 0 (s1.queueLength - customersToServe)
  { currentTime := s1.currentTime + cfg.timeStep
    queueLength := newQueueLength
    serversBusy := max 0 (serversCurrentlyBusy - completions)
    totalArrivals := s1.totalArrivals
    totalServed := s1.totalServed + completions
    cumulativeQueueLength := s1.cumulativeQueueLength + newQueueLength
    timeSteps := s1.timeSteps + 1 }

end QueueSimulation

section SimulationTheorems

open QueueSimulation

/-- Any single `step`, from any pre-state, produces a state with a
non-negative queue length and `serversBusy ∈ [0, numServers]`, as long as
the configured number of servers is non-negative.  (The conclusion needs no
assumption on the pre-state: `queueLength` and `serversBusy` are clamped by
`max 0 _`, and `serversCurrentlyBusy ≤ numServers` holds by the `min`.) -/
lemma step_state_bounds (cfg : SimulationConfig) (inp : StepInput)
    (s : SimulationState) (hc : 0 ≤ cfg.numServers) :
    0 ≤ (step cfg inp s).queueLength ∧
    0 ≤ (step cfg inp s).serversBusy ∧
    (step cfg inp s).serversBusy ≤ cfg.numServers := by
  unfold step
  split_ifs <;>
  · dsimp only
    refine ⟨le_max_left _ _, le_max_left _ _, ?_⟩
    omega

/-- The invariant of `step_state_bounds` holds after any run (any list of
per-step random outcomes) from the zero-initialized state. -/
lemma foldl_step_state_bounds (cfg : SimulationConfig) (hc : 0 ≤ cfg.numServers)
    (inputs : List StepInput) (s : SimulationState)
    (hs : 0 ≤ s.queueLength ∧ 0 ≤ s.serversBusy ∧ s.serversBusy ≤ cfg.numServers) :
    0 ≤ (inputs.foldl (fun st inp => step cfg inp st) s).queueLength ∧
    0 ≤ (inputs.foldl (fun st inp => step cfg inp st) s).serversBusy ∧
    (inputs.foldl (fun st inp => step cfg inp st) s).serversBusy ≤ cfg.numServers := by
  induction inputs generalizing s with
  | nil => exact hs
  | cons inp rest ih =>
      exact ih (step cfg inp s) (step_state_bounds cfg inp s hc)

/-- Claim C8: for every configuration with a non-negative server count and
every sequence of `step()` calls from the zero-initialized state (the
Bernoulli outcomes quantified as arbitrary boolean inputs), the state
invariant `queueLength ≥ 0` and `0 ≤ serversBusy ≤ numServers` holds after
every step. -/
theorem run_queue_and_servers_in_range (cfg : SimulationConfig)
    (hc : 0 ≤ cfg.numServers) (inputs : List StepInput) :
    0 ≤ (run cfg inputs).queueLength ∧
    0 ≤ (run cfg inputs).serversBusy ∧
    (run cfg inputs).serversBusy ≤ cfg.numServers :=
  foldl_step_state_bounds cfg hc inputs getInitialState
    ⟨le_refl 0, le_refl 0, hc⟩

/-- Witness for C8 at a concrete configuration and input sequence. -/
theorem run_queue_and_servers_in_range_witness :
    (0:ℤ) ≤ 2 ∧
    (0 ≤ (run ⟨10, 12, 2, 1/10⟩
        [⟨true, fun _ => false⟩, ⟨false, fun _ => true⟩]).queueLength ∧
     0 ≤ (run ⟨10, 12, 2, 1/10⟩
        [⟨true, fun _ => false⟩, ⟨false, fun _ => true⟩]).serversBusy ∧
     (run ⟨10, 12, 2, 1/10⟩
        [⟨true, fun _ => false⟩, ⟨false, fun _ => true⟩]).serversBusy ≤ 2) :=
  ⟨by decide,
   run_queue_and_servers_in_range ⟨10, 12, 2, 1/10⟩ (by decide)
     [⟨true, fun _ => false⟩, ⟨false, fun _ => true⟩]⟩

/-- Claim C1 (failing run): from the zero-initialized state under the
configuration of the repository's own tests, two steps suffice to drive
`totalServed` above `totalArrivals`.  Step 1: an arrival occurs and no
service completes — the arrival is then counted both in `queueLength` and in
`serversBusy`.  Step 2: no arrival, and both "busy" servers complete — the
single customer is served twice. -/
theorem totalServed_can_exceed_totalArrivals :
    (run ⟨10, 12, 2, 1/10⟩
      [⟨true, fun _ => false⟩, ⟨false, fun _ => true⟩]).totalArrivals = 1 ∧
    (run ⟨10, 12, 2, 1/10⟩
      [⟨true, fun _ => false⟩, ⟨false, fun _ => true⟩]).totalServed = 2 ∧
    ¬ ((run ⟨10, 12, 2, 1/10⟩
        [⟨true, fun _ => false⟩, ⟨false, fun _ => true⟩]).totalServed ≤
       (run ⟨10, 12, 2, 1/10⟩
        [⟨true, fun _ => false⟩, ⟨false, fun _ => true⟩]).totalArrivals) := by
  refine ⟨by decide, by decide, by decide⟩

/-- Claim C9: `updateConfig(partial)` replaces the configuration by the old
configuration overridden with the fields present in the patch, and leaves
every field of the simulation state unchanged. -/
theorem updateConfig_merges_config_and_preserves_state
    (q : QueueSimulationObj) (patch : ConfigPatch) :
    (updateConfig q patch).state = q.state ∧
    (updateConfig q patch).config.arrivalRate
      = patch.arrivalRate.getD q.config.arrivalRate ∧
    (updateConfig q patch).config.serviceRate
      = patch.serviceRate.getD q.config.serviceRate ∧
    (updateConfig q patch).config.numServers
      = patch.numServers.getD q.config.numServers ∧
    (updateConfig q patch).config.timeStep
      = patch.timeStep.getD q.config.timeStep :=
  ⟨rfl, rfl, rfl, rfl, rfl⟩

/-- Claim C10: `getAverageQueueLength()` returns 0 when `timeSteps = 0` (the
`0 / 0` division that would produce NaN is guarded away), and returns
`cumulativeQueueLength / timeSteps` whenever `timeSteps > 0`. -/
theorem getAverageQueueLength_guarded (s : SimulationState) :
    (s.timeSteps = 0 → getAverageQueueLength s = 0) ∧
    (0 < s.timeSteps →
      getAverageQueueLength s
        = (s.cumulativeQueueLength : ℚ) / (s.timeSteps : ℚ)) := by
  constructor
  · intro h
    simp [getAverageQueueLength, h]
  · intro h
    rw [getAverageQueueLength, if_neg (by omega)]

/-- Witness for C10 at concrete states, covering both branches. -/
theorem getAverageQueueLength_guarded_witness :
    ((0:ℤ) < 3 ∧
      getAverageQueueLength ⟨0, 0, 0, 0, 0, 7, 3⟩
        = (((7:ℤ) : ℚ) / ((3:ℤ) : ℚ))) ∧
    ((0:ℤ) = 0 ∧ getAverageQueueLength ⟨0, 0, 0, 0, 0, 7, 0⟩ = 0) :=
  ⟨⟨by decide, (getAverageQueueLength_guarded ⟨0, 0, 0, 0, 0, 7, 3⟩).2 (by decide)⟩,
   ⟨rfl, (getAverageQueueLength_guarded ⟨0, 0, 0, 0, 0, 7, 0⟩).1 rfl⟩⟩

/-- Claim C2 (spec-modelled finite-capacity mode): when `maxCapacity` is
configured and an arrival would push `queueLength + serversBusy` above it,
the step behaves exactly as the same step without the arrival — the arrival
is rejected, and in particular `totalArrivals` is not incremented. -/
theorem stepK_rejects_arrival_at_capacity (cfg : SimulationConfigK)
    (inp : StepInput) (s : SimulationState) (cap : ℤ)
    (hcap : cfg.maxCapacity = some cap)
    (hfull : cap < s.queueLength + s.serversBusy + 1) :
    stepK cfg inp s = stepK cfg ⟨false, inp.serviceCoin⟩ s ∧
    (stepK cfg inp s).totalArrivals = s.totalArrivals := by
  have hno : ¬ (s.queueLength + s.serversBusy + 1 ≤ cap) := by omega
  constructor
  · unfold stepK
    simp [hcap, hno]
  · unfold stepK
    simp [hcap, hno]

/-- Witness for C2: a capacity-2 system already holding two customers rejects
an arrival. -/
theorem stepK_rejects_arrival_at_capacity_witness :
    ((SimulationConfigK.mk 10 12 2 (1/10) (some 2)).maxCapacity = some 2 ∧
      (2:ℤ) < 1 + 1 + 1) ∧
    (stepK ⟨10, 12, 2, 1/10, some 2⟩ ⟨true, fun _ => false⟩ ⟨0, 1, 1, 2, 0, 0, 0⟩
        = stepK ⟨10, 12, 2, 1/10, some 2⟩ ⟨false, fun _ => false⟩ ⟨0, 1, 1, 2, 0, 0, 0⟩ ∧
      (stepK ⟨10, 12, 2, 1/10, some 2⟩ ⟨true, fun _ => false⟩
          ⟨0, 1, 1, 2, 0, 0, 0⟩).totalArrivals = 2) :=
  ⟨⟨rfl, by decide⟩,
   stepK_rejects_arrival_at_capacity ⟨10, 12, 2, 1/10, some 2⟩
     ⟨true, fun _ => false⟩ ⟨0, 1, 1, 2, 0, 0, 0⟩ 2 rfl (by decide)⟩

end SimulationTheorems

section MMCTheorems

open MMCQueueingModel

/-- The iterative factorial is positive. -/
lemma factorial_pos (n : ℕ) : 0 < factorial n := by
  induction n with
  | zero => exact Nat.one_pos
  | succ n ih => exact Nat.mul_pos (Nat.succ_pos n) ih

/-- Claim C3: whenever ρ = λ/(cμ) ≥ 1, `calculateMetrics` reports
`isStable = false`, all four derived metrics are the positive-infinity
sentinel `⊤` (which in `WithTop ℚ` is distinct from every finite rational and
cannot be NaN), and the `utilization` field still carries the real value
λ/(μ·c). -/
theorem calculateMetrics_unstable (p : QueueingParameters)
    (h : 1 ≤ calculateUtilization p) :
    (calculateMetrics p).isStable = false ∧
    (calculateMetrics p).averageQueueLength = ⊤ ∧
    (calculateMetrics p).averageSystemLength = ⊤ ∧
    (calculateMetrics p).averageWaitTime = ⊤ ∧
    (calculateMetrics p).averageSystemTime = ⊤ ∧
    (calculateMetrics p).utilization
      = p.arrivalRate / (p.serviceRate * (p.numServers : ℚ)) := by
  have hs : isSystemStable p = false := by
    simp only [isSystemStable, decide_eq_false_iff_not, not_lt]
    exact h
  simp [calculateMetrics, hs, calculateUtilization]

/-- Witness for C3 at λ = 10, μ = 10, c = 1 (ρ = 1 exactly). -/
theorem calculateMetrics_unstable_witness :
    (1 ≤ calculateUtilization ⟨10, 10, 1⟩) ∧
    ((calculateMetrics ⟨10, 10, 1⟩).isStable = false ∧
     (calculateMetrics ⟨10, 10, 1⟩).averageQueueLength = ⊤ ∧
     (calculateMetrics ⟨10, 10, 1⟩).averageSystemLength = ⊤ ∧
     (calculateMetrics ⟨10, 10, 1⟩).averageWaitTime = ⊤ ∧
     (calculateMetrics ⟨10, 10, 1⟩).averageSystemTime = ⊤ ∧
     (calculateMetrics ⟨10, 10, 1⟩).utilization = 10 / (10 * ((1 : ℕ) : ℚ))) :=
  ⟨by norm_num [calculateUtilization],
   calculateMetrics_unstable ⟨10, 10, 1⟩ (by norm_num [calculateUtilization])⟩

/-- Claim C6: for stable parameters (a = λ/μ < c, positive rates, c ≥ 1) the
Erlang-C value lies in [0,1]; and whenever a ≥ c it is exactly 1. -/
theorem calculateErlangC_bounds (p : QueueingParameters) :
    (0 < p.arrivalRate → 0 < p.serviceRate → 1 ≤ p.numServers →
      offeredLoad p < (p.numServers : ℚ) →
      0 ≤ calculateErlangC p ∧ calculateErlangC p ≤ 1) ∧
    ((p.numServers : ℚ) ≤ offeredLoad p → calculateErlangC p = 1) := by
  constructor
  · intro hl hm hc ha
    have hnot : ¬ ((p.numServers : ℚ) ≤ offeredLoad p) := not_le.2 ha
    have ha0 : 0 < offeredLoad p := div_pos hl hm
    have hcQ : (0 : ℚ) < (p.numServers : ℚ) := by
      exact_mod_cast Nat.lt_of_lt_of_le Nat.zero_lt_one hc
    have hfact : (0 : ℚ) < (factorial p.numServers : ℚ) := by
      exact_mod_cast factorial_pos p.numServers
    have hnum : 0 < erlangCNumerator p := by
      unfold erlangCNumerator
      have h1 : 0 < offeredLoad p ^ p.numServers := pow_pos ha0 _
      have h2 : 0 < (p.numServers : ℚ) - offeredLoad p := sub_pos.2 ha
      positivity
    have hsum : 0 ≤ ∑ k in Finset.range p.numServers,
        offeredLoad p ^ k / (factorial k : ℚ) := by
      refine Finset.sum_nonneg fun k _ => ?_
      have : (0 : ℚ) < (factorial k : ℚ) := by exact_mod_cast factorial_pos k
      positivity
    have hden : 0 < erlangCDenominator p := by
      unfold erlangCDenominator
      linarith
    rw [calculateErlangC, if_neg hnot]
    constructor
    · exact div_nonneg hnum.le hden.le
    · rw [div_le_one hden]
      unfold erlangCDenominator
      linarith
  · intro h
    rw [calculateErlangC, if_pos h]

/-- Witness for C6: λ = 6, μ = 10, c = 1 is stable (a = 0.6 < 1); λ = 20,
μ = 10, c = 1 has a = 2 ≥ 1 and Erlang-C exactly 1. -/
theorem calculateErlangC_bounds_witness :
    (0 ≤ calculateErlangC ⟨6, 10, 1⟩ ∧ calculateErlangC ⟨6, 10, 1⟩ ≤ 1) ∧
    calculateErlangC ⟨20, 10, 1⟩ = 1 :=
  ⟨(calculateErlangC_bounds ⟨6, 10, 1⟩).1 (by norm_num) (by norm_num)
      (le_refl 1) (by norm_num [offeredLoad]),
   (calculateErlangC_bounds ⟨20, 10, 1⟩).2 (by norm_num [offeredLoad])⟩

/-- Claim C4: for stable parameters the metrics satisfy
`Lq = ErlangC·ρ/(1−ρ)`, `L = Lq + λ/μ`, `Wq = Lq/λ`, `W = L/λ`, and the
Little's-Law consequences `L = λ·W` and `Lq = λ·Wq`. -/
theorem calculateMetrics_stable_identities (p : QueueingParameters)
    (hl : 0 < p.arrivalRate) (hm : 0 < p.serviceRate) (hc : 1 ≤ p.numServers)
    (hrho : calculateUtilization p < 1) :
    (calculateMetrics p).averageQueueLength = ((lqStable p : ℚ) : WithTop ℚ) ∧
    lqStable p
      = calculateErlangC p * calculateUtilization p / (1 - calculateUtilization p) ∧
    (calculateMetrics p).averageSystemLength
      = ((lqStable p + p.arrivalRate / p.serviceRate : ℚ) : WithTop ℚ) ∧
    (calculateMetrics p).averageWaitTime
      = ((lqStable p / p.arrivalRate : ℚ) : WithTop ℚ) ∧
    (calculateMetrics p).averageSystemTime
      = (((lqStable p + p.arrivalRate / p.serviceRate) / p.arrivalRate : ℚ) :
          WithTop ℚ) ∧
    lqStable p + p.arrivalRate / p.serviceRate
      = p.arrivalRate
        * ((lqStable p + p.arrivalRate / p.serviceRate) / p.arrivalRate) ∧
    lqStable p = p.arrivalRate * (lqStable p / p.arrivalRate) := by
  have hst : isSystemStable p = true := by
    simp only [isSystemStable, decide_eq_true_eq]
    exact hrho
  have hlne : p.arrivalRate ≠ 0 := ne_of_gt hl
  refine ⟨?_, rfl, ?_, ?_, ?_, ?_, ?_⟩
  · simp [calculateMetrics, hst, calculateAverageQueueLength]
  · simp [calculateMetrics, hst, calculateAverageSystemLength, lStable]
  · simp [calculateMetrics, hst, calculateAverageWaitTime]
  · simp [calculateMetrics, hst, calculateAverageSystemTime, lStable]
  · rw [mul_div_cancel₀ _ hlne]
  · rw [mul_div_cancel₀ _ hlne]

/-- Witness for C4 at λ = 6, μ = 10, c = 1 (the spec's worked example,
Lq = 0.9): the hypotheses hold and the first metric field evaluates to 0.9. -/
theorem calculateMetrics_stable_identities_witness :
    ((0:ℚ) < 6 ∧ (0:ℚ) < 10 ∧ 1 ≤ 1 ∧ calculateUtilization ⟨6, 10, 1⟩ < 1) ∧
    (calculateMetrics ⟨6, 10, 1⟩).averageQueueLength = ((9/10 : ℚ) : WithTop ℚ) := by
  have h := calculateMetrics_stable_identities ⟨6, 10, 1⟩ (by norm_num)
    (by norm_num) (le_refl 1) (by norm_num [calculateUtilization])
  refine ⟨⟨by norm_num, by norm_num, le_refl 1,
    by norm_num [calculateUtilization]⟩, ?_⟩
  rw [h.1]
  norm_num [lqStable, calculateErlangC, calculateUtilization, offeredLoad,
    erlangCNumerator, erlangCDenominator, factorial]

end MMCTheorems

section MMCKTheorems

open MMCKQueueingModel

/-- Claim C5: `calculateP0` returns `1/(sum1+sum2)` with
`sum1 = Σ_{k<c} a^k/k!` and `sum2` the tolerance-guarded truncated-geometric
tail, and `calculateRejectionProbability` returns `P0·a^K/K!` when `K ≤ c`
and `P0·(a^c/c!)·ρ^(K−c)` when `K > c`, where `a = λ/μ` and `ρ = λ/(cμ)`. -/
theorem calculateP0_and_rejection_closed_forms (p : MMCKQueueingParameters)
    (hl : 0 < p.arrivalRate) (hm : 0 < p.serviceRate)
    (hc : 1 ≤ p.numServers) (hK : p.numServers ≤ p.maxCapacity) :
    calculateP0 p
      = 1 / ((∑ k in Finset.range p.numServers,
            (p.arrivalRate / p.serviceRate) ^ k / (factorial k : ℚ)) +
          (if |p.arrivalRate / ((p.numServers : ℚ) * p.serviceRate) - 1|
              < 1 / 10 ^ 10 then
            (p.arrivalRate / p.serviceRate) ^ p.numServers
                / (factorial p.numServers : ℚ)
              * ((p.maxCapacity : ℚ) - (p.numServers : ℚ) + 1)
          else
            (p.arrivalRate / p.serviceRate) ^ p.numServers
                / (factorial p.numServers : ℚ)
              * (1 - (p.arrivalRate / ((p.numServers : ℚ) * p.serviceRate))
                  ^ (p.maxCapacity - p.numServers + 1))
              / (1 - p.arrivalRate / ((p.numServers : ℚ) * p.serviceRate)))) ∧
    calculateRejectionProbability p
      = (if p.maxCapacity ≤ p.numServers then
          calculateP0 p * (p.arrivalRate / p.serviceRate) ^ p.maxCapacity
            / (factorial p.maxCapacity : ℚ)
        else
          calculateP0 p
            * ((p.arrivalRate / p.serviceRate) ^ p.numServers
                / (factorial p.numServers : ℚ))
            * (p.arrivalRate / ((p.numServers : ℚ) * p.serviceRate))
                ^ (p.maxCapacity - p.numServers)) :=
  ⟨rfl, rfl⟩

/-- Witness for C5 at λ = 6, μ = 10, c = 1, K = 5 (the spec's worked
example). -/
theorem calculateP0_and_rejection_closed_forms_witness :
    ((0:ℚ) < 6 ∧ (0:ℚ) < 10 ∧ (1:ℕ) ≤ 1 ∧ (1:ℕ) ≤ 5) ∧
    calculateP0 ⟨6, 10, 1, 5⟩
      = 1 / ((∑ k in Finset.range 1, ((6:ℚ) / 10) ^ k / (factorial k : ℚ)) +
          (if |(6:ℚ) / (((1:ℕ) : ℚ) * 10) - 1| < 1 / 10 ^ 10 then
            ((6:ℚ) / 10) ^ 1 / (factorial 1 : ℚ) * (((5:ℕ) : ℚ) - ((1:ℕ) : ℚ) + 1)
          else
            ((6:ℚ) / 10) ^ 1 / (factorial 1 : ℚ)
              * (1 - ((6:ℚ) / (((1:ℕ) : ℚ) * 10)) ^ (5 - 1 + 1))
              / (1 - (6:ℚ) / (((1:ℕ) : ℚ) * 10)))) :=
  ⟨⟨by norm_num, by norm_num, le_refl 1, by norm_num⟩,
   (calculateP0_and_rejection_closed_forms ⟨6, 10, 1, 5⟩ (by norm_num)
     (by norm_num) (le_refl 1) (by norm_num)).1⟩

/-- Claim C7 (amended): provided the computed effective rate
`λ_eff = λ·(1−Pb)` is non-negative (equivalently `Pb ≤ 1` when `λ > 0`,
which the pathological tolerance branch can violate — see the
counterexample), `calculateMetrics` returns `isStable = true`,
`L = Lq + λ_eff/μ`, `Wq = Lq/λ_eff`, `W = L/λ_eff`, and `Wq = W = 0` when
`λ_eff = 0`. -/
theorem calculateMetrics_effective_rate (p : MMCKQueueingParameters)
    (h : 0 ≤ lambdaEff p) :
    (calculateMetrics p).isStable = true ∧
    lambdaEff p = p.arrivalRate * (1 - calculateRejectionProbability p) ∧
    (calculateMetrics p).averageQueueLength = calculateAverageQueueLength p ∧
    (calculateMetrics p).averageSystemLength
      = calculateAverageQueueLength p + lambdaEff p / p.serviceRate ∧
    (calculateMetrics p).averageWaitTime
      = calculateAverageQueueLength p / lambdaEff p ∧
    (calculateMetrics p).averageSystemTime
      = (calculateAverageQueueLength p + lambdaEff p / p.serviceRate)
          / lambdaEff p ∧
    (lambdaEff p = 0 →
      (calculateMetrics p).averageWaitTime = 0 ∧
      (calculateMetrics p).averageSystemTime = 0) := by
  rcases eq_or_lt_of_le h with h0 | hpos
  · have hz : lambdaEff p = 0 := h0.symm
    refine ⟨rfl, rfl, rfl, ?_, ?_, ?_, fun _ => ⟨?_, ?_⟩⟩ <;>
      simp [calculateMetrics, hz]
  · refine ⟨rfl, rfl, rfl, ?_, ?_, ?_, fun hzz => absurd hzz hpos.ne'⟩ <;>
      simp [calculateMetrics, hpos]

/-- Witness for C7 (amended) at λ = 6, μ = 10, c = 1, K = 5, where
`λ_eff > 0`. -/
theorem calculateMetrics_effective_rate_witness :
    (0 ≤ lambdaEff ⟨6, 10, 1, 5⟩) ∧
    ((calculateMetrics ⟨6, 10, 1, 5⟩).isStable = true ∧
     (calculateMetrics ⟨6, 10, 1, 5⟩).averageSystemLength
       = calculateAverageQueueLength ⟨6, 10, 1, 5⟩
           + lambdaEff ⟨6, 10, 1, 5⟩ / 10) := by
  have hle : (0:ℚ) ≤ lambdaEff ⟨6, 10, 1, 5⟩ := by
    norm_num [lambdaEff, calculateRejectionProbability, calculateP0,
      offeredLoad, rho, rhoTol, factorial, Finset.sum_range_one, abs]
  have h := calculateMetrics_effective_rate ⟨6, 10, 1, 5⟩ hle
  exact ⟨hle, h.1, h.2.2.2.1⟩

end MMCKTheorems

section MMCKCounterexample

open MMCKQueueingModel

/-- Helper for the C7 counterexample: a base whose 10¹¹-th power is already at
least 2 has a 10¹³-th power exceeding any bound below 2¹⁰⁰ (the base is kept
abstract so that no tactic tries to fold the astronomically large constant
power). -/
lemma pow_big_lower_bound (x : ℚ) (hx : 2 ≤ x ^ (10 ^ 11 : ℕ)) (B : ℚ)
    (hB : B < 2 ^ (100 : ℕ)) : B < x ^ (10 ^ 13 : ℕ) := by
  have h2 : x ^ (10 ^ 13 : ℕ) = (x ^ (10 ^ 11 : ℕ)) ^ (100 : ℕ) := by
    rw [← pow_mul]
    congr 1
  have h3 : (2 : ℚ) ^ (100 : ℕ) ≤ (x ^ (10 ^ 11 : ℕ)) ^ (100 : ℕ) :=
    pow_le_pow_left₀ (by norm_num) hx 100
  calc B < 2 ^ (100 : ℕ) := hB
    _ ≤ (x ^ (10 ^ 11 : ℕ)) ^ (100 : ℕ) := h3
    _ = x ^ (10 ^ 13 : ℕ) := h2.symm

/-- Claim C7 counterexample: at λ = 1 + 10⁻¹¹, μ = 1, c = 1, K = 10¹³ the
`|ρ−1| < 1e-10` tolerance branch of `calculateP0` is taken although ρ > 1,
so `P0 = 1/(1 + ρ·10¹³)` while `Pb = P0·ρ^K = ρ^K/(1 + ρ·10¹³) > 1` (since
`ρ^K ≥ 2¹⁰⁰`).  Hence `λ_eff = λ(1−Pb) < 0`, `calculateMetrics` takes its
`λ_eff ≤ 0` fallback `L = Lq + 0`, and the claimed unconditional identity
`L = Lq + λ_eff/μ` fails.  -/
theorem calculateMetrics_effective_rate_counterexample :
    ¬ ((calculateMetrics ⟨1 + 1/10^11, 1, 1, 10^13⟩).averageSystemLength
        = (calculateMetrics ⟨1 + 1/10^11, 1, 1, 10^13⟩).averageQueueLength
          + lambdaEff ⟨1 + 1/10^11, 1, 1, 10^13⟩ / (1 : ℚ)) := by
  have htol : |rho ⟨1 + 1/10^11, 1, 1, 10^13⟩ - 1| < rhoTol := by
    rw [show rho ⟨1 + 1/10^11, 1, 1, 10^13⟩ = 1 + 1/10^11 from by
      norm_num [rho], rhoTol]
    rw [show (1 : ℚ) + 1/10^11 - 1 = 1/10^11 by ring]
    rw [abs_of_pos (by norm_num)]
    norm_num
  have hP0 : calculateP0 ⟨1 + 1/10^11, 1, 1, 10^13⟩
      = 1 / (1 + (1 + 1/10^11) * 10^13) := by
    rw [calculateP0]
    simp only [htol, if_true]
    norm_num [offeredLoad, factorial, Finset.sum_range_one]
  have hKc : ¬ ((⟨1 + 1/10^11, 1, 1, 10^13⟩ : MMCKQueueingParameters).maxCapacity
      ≤ (⟨1 + 1/10^11, 1, 1, 10^13⟩ : MMCKQueueingParameters).numServers) := by
    norm_num
  have he : (10^13 - 1 : ℕ) + 1 = 10^13 := by norm_num
  have hPb : calculateRejectionProbability ⟨1 + 1/10^11, 1, 1, 10^13⟩
      = (1 + 1/10^11 : ℚ) ^ (10^13 : ℕ) / (1 + (1 + 1/10^11) * 10^13) := by
    rw [calculateRejectionProbability]
    simp only [hKc, if_false, hP0]
    rw [show rho ⟨1 + 1/10^11, 1, 1, 10^13⟩ = 1 + 1/10^11 from by norm_num [rho]]
    rw [show offeredLoad ⟨1 + 1/10^11, 1, 1, 10^13⟩ = 1 + 1/10^11 from by
      norm_num [offeredLoad]]
    rw [show ((⟨1 + 1/10^11, 1, 1, 10^13⟩ : MMCKQueueingParameters).maxCapacity
        - (⟨1 + 1/10^11, 1, 1, 10^13⟩ : MMCKQueueingParameters).numServers : ℕ)
        = 10^13 - 1 from by norm_num]
    rw [show ((1 + 1/10^11 : ℚ)
          ^ ((⟨1 + 1/10^11, 1, 1, 10^13⟩ : MMCKQueueingParameters).numServers)
        / (factorial (⟨1 + 1/10^11, 1, 1, 10^13⟩ :
            MMCKQueueingParameters).numServers : ℚ)) = 1 + 1/10^11 from by
      norm_num [factorial]]
    rw [div_mul_eq_mul_div, div_mul_eq_mul_div, one_mul]
    rw [show (1 + 1/10^11 : ℚ) * (1 + 1/10^11) ^ (10^13 - 1 : ℕ)
        = (1 + 1/10^11 : ℚ) ^ (10^13 : ℕ) from by
      rw [← pow_succ', he]]
  have hb := one_add_mul_le_pow (a := (1:ℚ)/10^11) (by norm_num) (10^11)
  have hc2 : (1 : ℚ) + ((10^11 : ℕ) : ℚ) * (1/10^11 : ℚ) = 2 := by
    push_cast
    norm_num
  rw [hc2] at hb
  have hkey : (1:ℚ) + (1 + 1/10^11) * 10^13 < (1 + 1/10^11) ^ (10^13 : ℕ) :=
    pow_big_lower_bound (1 + 1/10^11) hb _ (by norm_num)
  have hD : (0:ℚ) < 1 + (1 + 1/10^11) * 10^13 := by norm_num
  have hPb1 : 1 < calculateRejectionProbability ⟨1 + 1/10^11, 1, 1, 10^13⟩ := by
    rw [hPb, lt_div_iff₀ hD, one_mul]
    exact hkey
  have hlneg : lambdaEff ⟨1 + 1/10^11, 1, 1, 10^13⟩ < 0 := by
    rw [lambdaEff]
    have hlp : (0:ℚ) < (⟨1 + 1/10^11, 1, 1, 10^13⟩ :
        MMCKQueueingParameters).arrivalRate := by norm_num
    have hneg : 1 - calculateRejectionProbability ⟨1 + 1/10^11, 1, 1, 10^13⟩
        < 0 := sub_neg.mpr hPb1
    exact mul_neg_of_pos_of_neg hlp hneg
  have hnotpos : ¬ (0 < lambdaEff ⟨1 + 1/10^11, 1, 1, 10^13⟩) :=
    not_lt.2 hlneg.le
  intro hEq
  rw [show (calculateMetrics ⟨1 + 1/10^11, 1, 1, 10^13⟩).averageSystemLength
      = calculateAverageQueueLength ⟨1 + 1/10^11, 1, 1, 10^13⟩ from by
    simp only [calculateMetrics]
    rw [if_neg hnotpos, add_zero]] at hEq
  rw [show (calculateMetrics ⟨1 + 1/10^11, 1, 1, 10^13⟩).averageQueueLength
      = calculateAverageQueueLength ⟨1 + 1/10^11, 1, 1, 10^13⟩ from rfl] at hEq
  have hz : lambdaEff ⟨1 + 1/10^11, 1, 1, 10^13⟩ / 1 = 0 :=
    self_eq_add_right.1 hEq
  rw [div_one] at hz
  exact absurd hz (ne_of_lt hlneg)

end MMCKCounterexample
